import Mathlib

/-!
Verification development for the Couchbase online-repository core
(`Config.py`, `BaseRepo.py`, `Conn.py`).

The repository code is a thin asynchronous layer over the Couchbase
driver (`acouchbase` / `couchbase`).  The driver itself is an external
collaborator: it is embedded here as an abstract key-value store plus
explicit transcoder functions.  Definitions whose doc comment starts
with "Modelled from the spec:" embed that external surface following the
specification's description of it; all other definitions are translated
from the repository's own source files.
-/

namespace CitiAsync

/-! ## Document values and stored payloads -/

/-- A Python value flowing through the repository: a text string, a
structured map (modelled as a flat string-to-string association list),
or a raw byte sequence (each byte a `Nat`). -/
inductive PyVal where
  | pyStr (s : String)
  | pyDict (entries : List (String × String))
  | pyBytes (b : List Nat)
deriving DecidableEq, Repr

/-- Modelled from the spec: what the backend actually stores for a key —
either a structured/JSON-encoded value (written through the default
transcoder) or uninterpreted raw bytes (written through the raw-binary
transcoder). -/
inductive Payload where
  | jsonPayload (v : PyVal)
  | rawPayload (b : List Nat)
deriving DecidableEq, Repr

/-- Modelled from the spec: the backend collection's key-to-payload map,
as an association list. -/
abbrev Store := List (String × Payload)

/-- Modelled from the spec: point lookup in the backend collection. -/
def lookupKey : Store → String → Option Payload
  | [], _ => none
  | (k', p) :: rest, k => if k' = k then some p else lookupKey rest k

/-- Modelled from the spec: the backend `upsert` — insert-or-replace,
full-document semantics. -/
def upsertKey : Store → String → Payload → Store
  | [], k, p => [(k, p)]
  | (k', p') :: rest, k, p =>
      if k' = k then (k, p) :: rest else (k', p') :: upsertKey rest k p

/-! ## Transcoders (the driver's encoding surface) -/

/-- Modelled from the spec: the default structured transcoder used by a
plain `upsert`.  It serializes text and map values; a raw byte sequence
is not structured data and makes the encode step raise (`none`). -/
def defaultEncode : PyVal → Option Payload
  | .pyBytes _ => none
  | v => some (.jsonPayload v)

/-- Modelled from the spec: `RawBinaryTranscoder` encoding — accepts
only a raw byte sequence and stores it uninterpreted; any other value
makes the encode step raise (`none`). -/
def rawEncode : PyVal → Option Payload
  | .pyBytes b => some (.rawPayload b)
  | _ => none

/-- Rendering of a structured map as plain text, used when a payload is
read back as a string. -/
def dictText (m : List (String × String)) : String :=
  String.intercalate ", " (m.map fun kv => kv.1 ++ "=" ++ kv.2)

/-- Rendering of raw bytes as plain text (lossy byte-to-character
decoding). -/
def bytesText (b : List Nat) : String :=
  String.mk (b.map Char.ofNat)

/-- The byte sequence underlying a text string. -/
def strBytes (s : String) : List Nat :=
  s.data.map Char.toNat

/-- Modelled from the spec: `content_as[dict]` — structured decode of a
stored payload, succeeding exactly when the payload is a structured
(map) value. -/
def contentAsDict : Payload → Option (List (String × String))
  | .jsonPayload (.pyDict m) => some m
  | _ => none

/-- Modelled from the spec: `content_as[str]` — the stored payload read
back as plain text. -/
def contentAsStr : Payload → String
  | .jsonPayload (.pyStr s) => s
  | .jsonPayload (.pyDict m) => dictText m
  | .jsonPayload (.pyBytes b) => bytesText b
  | .rawPayload b => bytesText b

/-- Modelled from the spec: `content_as[bytes]` — the stored payload
read back as an uninterpreted byte sequence. -/
def contentAsBytes : Payload → List Nat
  | .rawPayload b => b
  | .jsonPayload v => strBytes (contentAsStr (.jsonPayload v))

/-! ## Read path: `find_by_key` (Conn.py lines 103-127) -/

/-- Outcome of `find_by_key`: a returned value, the explicit absent
result (`None`), or an exception propagating to the caller. -/
inductive FindResult where
  | found (v : PyVal)
  | absent
  | raised
deriving DecidableEq, Repr

/-- `_OnlineRepoCouchbase.find_by_key(key, compress)`.  `kvUp` models
whether the backend session is reachable: when it is not, the driver
`get` raises and the exception propagates (outer `except ... raise`).
Otherwise: a missing key is `DocumentNotFoundException`, caught and
turned into `None`; with `compress` the content is returned as bytes;
without it the structured decode is attempted and a `ValueError`
falls back to the plain-text content. -/
def find_by_key (kvUp : Bool) (st : Store) (key : String) (compress : Bool) :
    FindResult :=
  if kvUp = false then .raised
  else
    match lookupKey st key with
    | none => .absent
    | some p =>
        if compress then .found (.pyBytes (contentAsBytes p))
        else
          match contentAsDict p with
          | some m => .found (.pyDict m)
          | none => .found (.pyStr (contentAsStr p))

/-! ## Write path: `save` (Conn.py lines 129-140) -/

/-- `_OnlineRepoCouchbase.save(key, value, compress)`: upsert through
the raw-binary transcoder when `compress` is set, through the default
transcoder otherwise.  `none` is the transcoder raising; the exception
propagates unmodified. -/
def save (st : Store) (key : String) (value : PyVal) (compress : Bool) :
    Option Store :=
  if compress then (rawEncode value).map (upsertKey st key)
  else (defaultEncode value).map (upsertKey st key)

/-! ## Bulk write path: `save_all` (Conn.py lines 142-151) -/

/-- A driver call issued without `await`: `save_all` is a synchronous
method, so `self.conn.upsert(key, value)` on the asynchronous collection
produces an awaitable whose completion is not waited for.  The pending
operation records the arguments of the un-awaited call. -/
structure PendingUpsert where
  key : String
  value : PyVal
deriving DecidableEq, Repr

/-- What awaiting one of the pending upserts would do to the store
(default structured transcoder, as in the plain `upsert` call). -/
def awaitPendingUpsert (st : Store) (p : PendingUpsert) : Option Store :=
  (defaultEncode p.value).map (upsertKey st p.key)

/-- `_OnlineRepoCouchbase.save_all(obj_to_save)` as written in the
source: it iterates the mapping and calls `self.conn.upsert(key, value)`
for each entry WITHOUT awaiting it (the method is not `async` and has no
`await`).  The store visible when `save_all` returns is therefore the
store it started from; the un-awaited calls are returned as pending
operations, in mapping iteration order. -/
def save_all (st : Store) (objToSave : List (String × PyVal)) :
    Store × List PendingUpsert :=
  (st, objToSave.map fun kv => { key := kv.1, value := kv.2 })

/-- Modelled from the spec: `saveAll(mapping)` as the specification
describes it — one upsert per entry, run to completion synchronously, in
mapping iteration order, aborting on the first error. -/
def save_all_spec (st : Store) : List (String × PyVal) → Option Store
  | [] => some st
  | (k, v) :: rest =>
      match defaultEncode v with
      | none => none
      | some p => save_all_spec (upsertKey st k p) rest

/-! ## Native query path: `native_query` (Conn.py lines 153-161) -/

/-- Modelled from the spec: the handle returned by the asynchronous
cluster's `query` call — an asynchronous row stream that supports only
asynchronous iteration. -/
structure AsyncRowStream where
  rows : List PyVal
deriving DecidableEq, Repr

/-- Modelled from the acouchbase driver surface: a synchronous
`for row in result` over an asynchronous row stream does not iterate it;
it raises `TypeError` (`none`).  Only `async for` yields the rows. -/
def syncIterate (_s : AsyncRowStream) : Option (List PyVal) :=
  none

/-- Asynchronous iteration over the stream yields all rows, in the order
the backend produced them. -/
def asyncIterate (s : AsyncRowStream) : List PyVal :=
  s.rows

/-- Outcome of `native_query`: a materialized row sequence, or an
exception propagating to the caller. -/
inductive QueryOutcome where
  | rowsOut (rs : List PyVal)
  | raised
deriving DecidableEq, Repr

/-- `_OnlineRepoCouchbase.native_query(query)` as written in the source:
a synchronous method that calls `self.cluster.query(query)` (an
asynchronous request on the `acouchbase` cluster) and then iterates it
with a synchronous list comprehension.  `backendRows` gives the rows the
query service would yield for each statement. -/
def native_query (backendRows : String → List PyVal) (query : String) :
    QueryOutcome :=
  match syncIterate { rows := backendRows query } with
  | some rs => .rowsOut rs
  | none => .raised

/-- Modelled from the spec: `nativeQuery` as the specification describes
it — submit the statement and eagerly materialize every result row into
an ordered sequence before returning. -/
def native_query_spec (backendRows : String → List PyVal) (query : String) :
    QueryOutcome :=
  .rowsOut (asyncIterate { rows := backendRows query })

/-! ## Configuration: `ConnConfig` (Config.py lines 9-51) -/

/-- `ConnConfig`: the connection configuration value object, one field
per attribute assigned in `ConnConfig.__init__`. -/
structure ConnConfig where
  host_or_dsn : String
  user_name : String
  password : String
  bucket_name : String
  scope_name : String
  collection_name : String
  ssl : Bool
  ca_cert : Option String
  connect_timeout : Nat
  kv_timeout : Nat
  wait_timeout : Nat
  sasl_mech : String
deriving DecidableEq, Repr

/-- `ConnConfig.__init__` with every parameter given explicitly: it
assigns each argument to the matching attribute and performs no
validation. -/
def ConnConfig.init (host_or_dsn user_name password bucket_name
    scope_name collection_name : String) (ssl : Bool)
    (ca_cert : Option String) (connect_timeout kv_timeout wait_timeout : Nat)
    (sasl_mech : String) : ConnConfig :=
  { host_or_dsn := host_or_dsn, user_name := user_name,
    password := password, bucket_name := bucket_name,
    scope_name := scope_name, collection_name := collection_name,
    ssl := ssl, ca_cert := ca_cert, connect_timeout := connect_timeout,
    kv_timeout := kv_timeout, wait_timeout := wait_timeout,
    sasl_mech := sasl_mech }

/-- `ConnConfig.__init__` called with only the four required arguments,
the remaining parameters taking their declared defaults
(`"_default"` scope and collection, no TLS, no CA certificate,
timeouts 10/5/5, SASL mechanism `"PLAIN"`). -/
def ConnConfig.initDefaults (host_or_dsn user_name password bucket_name :
    String) : ConnConfig :=
  ConnConfig.init host_or_dsn user_name password bucket_name
    "_default" "_default" false none 10 5 5 "PLAIN"

/-! ## Connection lifecycle: `create_conn`, `initialize_repo`, `validate`
(Conn.py lines 32-101) -/

/-- Handle of an open cluster session (`self.cluster`). -/
structure ClusterHandle where
  endpoint : String
deriving DecidableEq, Repr

/-- Handle of the bound collection (`self.conn`), the three-level
binding bucket, scope, collection. -/
structure CollectionHandle where
  bucket : String
  scope : String
  coll : String
deriving DecidableEq, Repr

/-- Modelled from the spec: the backend's disposition towards each step
of the bind sequence — whether the driver call of that step succeeds or
raises. -/
structure Backend where
  authOk : Bool
  connectOk : Bool
  clusterReadyOk : Bool
  bucketOk : Bool
  bucketReadyOk : Bool
  scopeOk : Bool
  collectionOk : Bool
deriving DecidableEq, Repr

/-- One observable driver call of the bind sequence, with the arguments
the source passes to it.  `waitClusterReady` records the readiness-wait
bound handed to the driver, `none` when the call carries no bound. -/
inductive BindEvent where
  | buildAuth (user password : String)
  | openSession (url user password : String) (connectTimeout kvTimeout : Nat)
  | waitClusterReady (bound : Option Nat)
  | resolveBucket (name : String)
  | waitBucketReady
  | resolveScope (name : String)
  | resolveCollection (name : String)
deriving DecidableEq, Repr

/-- `_OnlineRepoCouchbase.create_conn(conn_config)`: the bind sequence
as written in the source.  It builds a `PasswordAuthenticator` from
username and password, connects to `"couchbase://" + host` with the
connect and key-value timeouts (assigning `self.cluster` once the
connect call returns), awaits `cluster.on_connect()` with no timeout
argument, resolves the bucket and awaits its readiness, resolves the
scope, and resolves and stores the collection.  Any step raising aborts
the remainder; the trace lists the calls attempted, in order.  Returns
(trace, new `self.cluster` assignment if any, new `self.conn` assignment
if any). -/
def create_conn (b : Backend) (c : ConnConfig) :
    List BindEvent × Option ClusterHandle × Option CollectionHandle :=
  let e1 := BindEvent.buildAuth c.user_name c.password
  if b.authOk = false then ([e1], none, none) else
  let e2 := BindEvent.openSession ( "couchbase://" ++ c.host_or_dsn)
    c.user_name c.password c.connect_timeout c.kv_timeout
  if b.connectOk = false then ([e1, e2], none, none) else
  let cl : ClusterHandle := { endpoint := c.host_or_dsn }
  let e3 := BindEvent.waitClusterReady none
  if b.clusterReadyOk = false then ([e1, e2, e3], some cl, none) else
  let e4 := BindEvent.resolveBucket c.bucket_name
  if b.bucketOk = false then ([e1, e2, e3, e4], some cl, none) else
  let e5 := BindEvent.waitBucketReady
  if b.bucketReadyOk = false then ([e1, e2, e3, e4, e5], some cl, none) else
  let e6 := BindEvent.resolveScope c.scope_name
  if b.scopeOk = false then ([e1, e2, e3, e4, e5, e6], some cl, none) else
  let e7 := BindEvent.resolveCollection c.collection_name
  if b.collectionOk = false then
    ([e1, e2, e3, e4, e5, e6, e7], some cl, none)
  else
    ([e1, e2, e3, e4, e5, e6, e7], some cl,
      some { bucket := c.bucket_name, scope := c.scope_name,
             coll := c.collection_name })

/-- The full bind trace the source produces when every step succeeds. -/
def codeBindTrace (c : ConnConfig) : List BindEvent :=
  [ BindEvent.buildAuth c.user_name c.password,
    BindEvent.openSession ( "couchbase://" ++ c.host_or_dsn)
      c.user_name c.password c.connect_timeout c.kv_timeout,
    BindEvent.waitClusterReady none,
    BindEvent.resolveBucket c.bucket_name,
    BindEvent.waitBucketReady,
    BindEvent.resolveScope c.scope_name,
    BindEvent.resolveCollection c.collection_name ]

/-- The bind trace as the specification words it: identical to the
source's, except that step (3), the cluster-readiness wait, is bounded
by the configured readiness-wait timeout. -/
def specBindTrace (c : ConnConfig) : List BindEvent :=
  [ BindEvent.buildAuth c.user_name c.password,
    BindEvent.openSession ( "couchbase://" ++ c.host_or_dsn)
      c.user_name c.password c.connect_timeout c.kv_timeout,
    BindEvent.waitClusterReady (some c.wait_timeout),
    BindEvent.resolveBucket c.bucket_name,
    BindEvent.waitBucketReady,
    BindEvent.resolveScope c.scope_name,
    BindEvent.resolveCollection c.collection_name ]

/-- How many bind-sequence calls are attempted under backend disposition
`b`: every step up to and including the first one that fails, all seven
when none of the first six fails (a step-7 failure happens after the
step-7 call is attempted). -/
def stepCount (b : Backend) : Nat :=
  if b.authOk = false then 1
  else if b.connectOk = false then 2
  else if b.clusterReadyOk = false then 3
  else if b.bucketOk = false then 4
  else if b.bucketReadyOk = false then 5
  else if b.scopeOk = false then 6
  else 7

/-- All seven bind steps succeed. -/
def bindAllOk (b : Backend) : Bool :=
  b.authOk && b.connectOk && b.clusterReadyOk && b.bucketOk &&
    b.bucketReadyOk && b.scopeOk && b.collectionOk

/-- The repository instance's mutable state: the collection handle
`self.conn`, the cluster handle `self.cluster`, and the stored
configuration. -/
structure Repo where
  conn : Option CollectionHandle
  cluster : Option ClusterHandle
  conn_config : ConnConfig
deriving DecidableEq, Repr

/-- `_OnlineRepoCouchbase.initialize_repo()`: when `self.conn` is
already bound it skips the bind sequence entirely; otherwise it runs
`create_conn`, applying whichever handle assignments the (possibly
aborted) bind sequence performed.  Returns (trace of driver calls made,
instance state afterwards, whether the call raised). -/
def initialize_repo (b : Backend) (r : Repo) : List BindEvent × Repo × Bool :=
  match r.conn with
  | some _ => ([], r, false)
  | none =>
      let (tr, cl, co) := create_conn b r.conn_config
      let r' : Repo :=
        match cl with
        | some c => { r with cluster := some c }
        | none => r
      match co with
      | some h => (tr, { r' with conn := some h }, false)
      | none => (tr, r', true)

/-- Outcome of `validate`: the driver result for the sentinel key, the
`None` return on a not-found sentinel, or an exception propagating. -/
inductive ValidateResult where
  | gotResult (p : Payload)
  | absentOk
  | raised
deriving DecidableEq, Repr

/-- `_OnlineRepoCouchbase.validate()`: a raw-transcoder `get` for the
sentinel key `"dummykey"`.  `kvUp` models whether the session is
reachable: when it is not, the driver call raises and the exception is
re-raised; a `DocumentNotFoundException` is caught and `None` returned;
a found sentinel returns the driver result. -/
def validate (kvUp : Bool) (st : Store) : ValidateResult :=
  if kvUp = false then .raised
  else
    match lookupKey st "dummykey" with
    | none => .absentOk
    | some p => .gotResult p

/-! ## Shared lemmas -/

/-- A key just upserted is looked up to exactly the payload written. -/
theorem lookupKey_upsertKey_self (st : Store) (k : String) (p : Payload) :
    lookupKey (upsertKey st k p) k = some p := by
  induction st with
  | nil => simp [upsertKey, lookupKey]
  | cons hd tl ih =>
      obtain ⟨k', p'⟩ := hd
      by_cases h : k' = k
      · simp [upsertKey, lookupKey, h]
      · simp [upsertKey, lookupKey, h, ih]

/-! ## Concrete instances used by witnesses and counterexamples -/

/-- The module-level `connection` config of Conn.py: required arguments
as given there, the remaining parameters at their defaults. -/
def connection : ConnConfig :=
  ConnConfig.init "localhost" "Administrator" "password" "test" "test"
    "test" false none 10 5 5 "PLAIN"

/-- A backend on which every bind step succeeds. -/
def allOkBackend : Backend :=
  { authOk := true, connectOk := true, clusterReadyOk := true,
    bucketOk := true, bucketReadyOk := true, scopeOk := true,
    collectionOk := true }

/-- A repository instance whose connection handle is already bound. -/
def boundRepo : Repo :=
  { conn := some { bucket := "test", scope := "test", coll := "test" },
    cluster := some { endpoint := "localhost" },
    conn_config := connection }

/-- A query-service behaviour yielding no rows for any statement. -/
def noRows : String → List PyVal := fun _ => []

/-! ## Claim theorems -/

/-- C1: for every key and value, `save(key, value, rawMode)` followed by
`findByKey(key, rawMode)` with the same `rawMode` returns a value equal
to the value that was saved, in raw-byte mode and in structured mode
alike (whenever the save itself succeeded, i.e. the value was encodable
in the chosen mode). -/
theorem save_find_round_trip (st st' : Store) (key : String) (v : PyVal)
    (compress : Bool) (h : save st key v compress = some st') :
    find_by_key true st' key compress = FindResult.found v := by
  cases compress <;> cases v <;>
    simp [save, rawEncode, defaultEncode] at h <;>
    subst h <;>
    simp [find_by_key, lookupKey_upsertKey_self, contentAsDict,
      contentAsStr, contentAsBytes]

/-- Witness for C1: the spec's own scenario, `save("101", "ok", false)`
then `findByKey("101", false)` returning `"ok"`, plus a raw-mode
round trip. -/
theorem save_find_round_trip_witness :
    find_by_key true [( "101", Payload.jsonPayload (PyVal.pyStr "ok"))]
        "101" false = FindResult.found (PyVal.pyStr "ok")
    ∧ find_by_key true [( "b", Payload.rawPayload [1, 2, 3])] "b" true
        = FindResult.found (PyVal.pyBytes [1, 2, 3]) :=
  ⟨save_find_round_trip [] _ "101" (PyVal.pyStr "ok") false rfl,
   save_find_round_trip [] _ "b" (PyVal.pyBytes [1, 2, 3]) true rfl⟩

/-- C5: for every key not present in the store, `findByKey` returns the
explicit absent result and never raises, for either value of
`rawMode`. -/
theorem find_by_key_absent_never_raises (st : Store) (key : String)
    (compress : Bool) (h : lookupKey st key = none) :
    find_by_key true st key compress = FindResult.absent := by
  simp [find_by_key, h]

/-- Witness for C5: the missing key `"no-such-key"` on an empty store,
in both modes. -/
theorem find_by_key_absent_never_raises_witness :
    find_by_key true [] "no-such-key" true = FindResult.absent
    ∧ find_by_key true [] "no-such-key" false = FindResult.absent :=
  ⟨find_by_key_absent_never_raises [] "no-such-key" true rfl,
   find_by_key_absent_never_raises [] "no-such-key" false rfl⟩

/-- C6: for every stored payload that is not structured data, non-raw
`findByKey` attempts the structured decode and, on its failure, falls
back to returning the payload as plain text — a normal return, never an
exception past the caller. -/
theorem find_by_key_decode_fallback (st : Store) (key : String)
    (p : Payload) (hp : lookupKey st key = some p)
    (hd : contentAsDict p = none) :
    find_by_key true st key false
      = FindResult.found (PyVal.pyStr (contentAsStr p)) := by
  simp [find_by_key, hp, hd]

/-- Witness for C6: a raw-byte payload under key `"k"` is returned as
its plain-text rendering, not raised. -/
theorem find_by_key_decode_fallback_witness :
    find_by_key true [( "k", Payload.rawPayload [104, 105])] "k" false
      = FindResult.found
          (PyVal.pyStr (contentAsStr (Payload.rawPayload [104, 105]))) :=
  find_by_key_decode_fallback [( "k", Payload.rawPayload [104, 105])] "k"
    (Payload.rawPayload [104, 105]) rfl rfl

/-- C8: `validate` never raises when the sentinel key `"dummykey"` is
genuinely absent (the not-found lookup is treated as success and the
absent result `None` is returned), and it does raise when the session
cannot be reached at all. -/
theorem validate_sentinel_behavior (st : Store) :
    (lookupKey st "dummykey" = none →
      validate true st = ValidateResult.absentOk)
    ∧ validate false st = ValidateResult.raised := by
  constructor
  · intro h
    simp [validate, h]
  · simp [validate]

/-- C3: `initialize` is idempotent — on an instance whose connection
handle is already bound, a second call returns at once with the state
unchanged and an empty trace of driver calls: no authenticator
construction and no session open happens. -/
theorem initialize_repo_idempotent (b : Backend) (r : Repo)
    (hdl : CollectionHandle) (h : r.conn = some hdl) :
    initialize_repo b r = ([], r, false) := by
  simp [initialize_repo, h]

/-- Witness for C3: a second `initialize` on the bound demo repository
is a no-op. -/
theorem initialize_repo_idempotent_witness :
    initialize_repo allOkBackend boundRepo = ([], boundRepo, false) :=
  initialize_repo_idempotent allOkBackend boundRepo
    { bucket := "test", scope := "test", coll := "test" } rfl

/-- C4 counterexample: on the module's own config (readiness-wait
timeout 5), the cluster-readiness wait executed by `create_conn` carries
no bound at all — in particular not the configured readiness-wait
timeout — so the executed trace differs from the trace the
specification words describe. -/
theorem bind_wait_timeout_unused_cex :
    BindEvent.waitClusterReady none
        ∈ (create_conn allOkBackend connection).1
    ∧ BindEvent.waitClusterReady (some connection.wait_timeout)
        ∉ (create_conn allOkBackend connection).1
    ∧ (create_conn allOkBackend connection).1 ≠ specBindTrace connection := by
  decide

/-- C4 (amended): the bind sequence executes, in order, (1) build the
authenticator from username/password, (2) open the cluster session with
connect timeout and per-operation timeout applied, (3) wait for cluster
readiness with no bound taken from the configuration, (4) resolve the
named bucket and wait for it, (5) resolve the named scope, (6) resolve
the named collection and store the handle; the failure of any step
aborts the remaining steps, and the handle is stored exactly when all
steps succeed. -/
theorem create_conn_bind_sequence (b : Backend) (c : ConnConfig) :
    (create_conn b c).1 = (codeBindTrace c).take (stepCount b)
    ∧ ((create_conn b c).2.2 ≠ none ↔ bindAllOk b = true)
    ∧ (bindAllOk b = true →
        (create_conn b c).2.2
          = some { bucket := c.bucket_name, scope := c.scope_name,
                   coll := c.collection_name }) := by
  obtain ⟨a1, a2, a3, a4, a5, a6, a7⟩ := b
  cases a1 <;> cases a2 <;> cases a3 <;> cases a4 <;> cases a5 <;>
    cases a6 <;> cases a7 <;>
    simp [create_conn, codeBindTrace, stepCount, bindAllOk]

/-- C2: `save_all` as written issues its upserts without awaiting them
(the method is synchronous), so the backend calls are not run to
completion before it returns: on an empty store, after
`save_all({"k1": "v1"})` returns, the key is not retrievable, while the
specified behaviour (awaited sequential upserts) would make
`findByKey("k1", false)` return the saved value. -/
theorem save_all_not_run_to_completion :
    (save_all [] [( "k1", PyVal.pyStr "v1")]).1 = []
    ∧ find_by_key true (save_all [] [( "k1", PyVal.pyStr "v1")]).1 "k1"
        false = FindResult.absent
    ∧ (save_all [] [( "k1", PyVal.pyStr "v1")]).2
        = [{ key := "k1", value := PyVal.pyStr "v1" }]
    ∧ save_all_spec [] [( "k1", PyVal.pyStr "v1")]
        = some [( "k1", Payload.jsonPayload (PyVal.pyStr "v1"))]
    ∧ find_by_key true [( "k1", Payload.jsonPayload (PyVal.pyStr "v1"))]
        "k1" false = FindResult.found (PyVal.pyStr "v1") :=
  ⟨rfl, rfl, rfl, rfl, rfl⟩

/-- C7: `native_query` as written is synchronous and iterates the
asynchronous query result with a plain `for`, which raises instead of
yielding rows; on an empty result set it raises rather than returning
the empty sequence the specified behaviour (eager materialization)
produces. -/
theorem native_query_sync_iteration_cex :
    native_query noRows "SELECT 1" = QueryOutcome.raised
    ∧ native_query_spec noRows "SELECT 1" = QueryOutcome.rowsOut [] :=
  ⟨rfl, rfl⟩

/-- C9 counterexample: construction with an empty bucket name succeeds
and yields a config whose bucket name is empty — no validation rejects
it. -/
theorem conn_config_empty_bucket_cex :
    (ConnConfig.initDefaults "localhost" "user" "pw" "").bucket_name
      = "" :=
  rfl

/-- C9 (amended): every field of a constructed `ConnConfig` is set, to
the corresponding argument (or declared default); the bucket name is
not validated, so it is whatever string was passed, empty included. -/
theorem conn_config_all_fields_set (h u p bkt sc col : String) (s : Bool)
    (ca : Option String) (ct kt wt : Nat) (sm : String) :
    (ConnConfig.init h u p bkt sc col s ca ct kt wt sm).host_or_dsn = h
    ∧ (ConnConfig.init h u p bkt sc col s ca ct kt wt sm).user_name = u
    ∧ (ConnConfig.init h u p bkt sc col s ca ct kt wt sm).password = p
    ∧ (ConnConfig.init h u p bkt sc col s ca ct kt wt sm).bucket_name = bkt
    ∧ (ConnConfig.init h u p bkt sc col s ca ct kt wt sm).scope_name = sc
    ∧ (ConnConfig.init h u p bkt sc col s ca ct kt wt sm).collection_name
        = col
    ∧ (ConnConfig.init h u p bkt sc col s ca ct kt wt sm).ssl = s
    ∧ (ConnConfig.init h u p bkt sc col s ca ct kt wt sm).ca_cert = ca
    ∧ (ConnConfig.init h u p bkt sc col s ca ct kt wt sm).connect_timeout
        = ct
    ∧ (ConnConfig.init h u p bkt sc col s ca ct kt wt sm).kv_timeout = kt
    ∧ (ConnConfig.init h u p bkt sc col s ca ct kt wt sm).wait_timeout = wt
    ∧ (ConnConfig.init h u p bkt sc col s ca ct kt wt sm).sasl_mech = sm :=
  ⟨rfl, rfl, rfl, rfl, rfl, rfl, rfl, rfl, rfl, rfl, rfl, rfl⟩

/-- A config equal to the module's `connection` on every field consumed
by the bind sequence, but with TLS enabled, a CA certificate path set,
and a different SASL mechanism. -/
def connectionTls : ConnConfig :=
  ConnConfig.init "localhost" "Administrator" "password" "test" "test"
    "test" true (some "/certs/ca.pem") 10 5 5 "SCRAM-SHA512"

/-- C10: two configs that agree on endpoint, credentials, bucket, scope,
collection and the two applied timeouts — and so may differ in the TLS
flag, the CA certificate path and the SASL mechanism — produce
identical bind behaviour: the very same trace and handles; moreover the
session is always opened with the plain `couchbase://` scheme and the
username/password authenticator. -/
theorem tls_fields_no_effect (b : Backend) (c1 c2 : ConnConfig)
    (hhost : c1.host_or_dsn = c2.host_or_dsn)
    (huser : c1.user_name = c2.user_name)
    (hpass : c1.password = c2.password)
    (hbucket : c1.bucket_name = c2.bucket_name)
    (hscope : c1.scope_name = c2.scope_name)
    (hcoll : c1.collection_name = c2.collection_name)
    (hct : c1.connect_timeout = c2.connect_timeout)
    (hkt : c1.kv_timeout = c2.kv_timeout) :
    create_conn b c1 = create_conn b c2
    ∧ (b.authOk = true →
        (create_conn b c1).1.get? 1
          = some (BindEvent.openSession
              ( "couchbase://" ++ c1.host_or_dsn) c1.user_name
              c1.password c1.connect_timeout c1.kv_timeout)) := by
  obtain ⟨a1, a2, a3, a4, a5, a6, a7⟩ := b
  cases a1 <;> cases a2 <;> cases a3 <;> cases a4 <;> cases a5 <;>
    cases a6 <;> cases a7 <;>
    simp [create_conn, hhost, huser, hpass, hbucket, hscope, hcoll, hct,
      hkt]

/-- Witness for C10: the module's `connection` and its TLS-enabled,
CA-bearing, SCRAM-mechanism variant bind identically. -/
theorem tls_fields_no_effect_witness :
    create_conn allOkBackend connection = create_conn allOkBackend connectionTls
    ∧ (allOkBackend.authOk = true →
        (create_conn allOkBackend connection).1.get? 1
          = some (BindEvent.openSession
              ( "couchbase://" ++ connection.host_or_dsn)
              connection.user_name connection.password
              connection.connect_timeout connection.kv_timeout)) :=
  tls_fields_no_effect allOkBackend connection connectionTls rfl rfl rfl
    rfl rfl rfl rfl rfl

end CitiAsync
